import Mathlib

/-!
Verification of the solar-logger telemetry agent (`src/solar_logger/logger.py`)
against its natural-language specification.

The development shallowly embeds the parts of the program the claims talk
about: the per-table SQLite store rows, the `mark_sent` UPDATE, the
`upload_data` request/response handling, the `fetch_unsent_data` /
`upload_unsent_data` forwarding cycle, and the TSL2591 light-sensor reading
path (`Tsl2591Sensor.sensor_data`, `option_in_tag`).

Machine-level conventions used throughout:
- Python `float` arithmetic is modelled over `ℚ` (all the formulas the
  claims mention are exact decimal computations on small values);
- Python exceptions are modelled with `Except PyError` where they escape a
  function, and with explicit result types (`ReadResult`, `HttpResult`)
  where the source catches them;
- timestamps are abstract `Nat` instants.
-/

namespace SolarLogger

/-- Python exception kinds that escape the functions modelled here. -/
inductive PyError where
  | attributeError
  | storageError
  deriving DecidableEq, Repr

/-- Decidable equality for `Except` results (not derived in core). -/
def exceptDecEq {ε α : Type} [DecidableEq ε] [DecidableEq α] :
    DecidableEq (Except ε α)
  | .error x, .error y =>
    if h : x = y then .isTrue (congrArg Except.error h)
    else .isFalse (fun he => h (Except.error.inj he))
  | .error _, .ok _ => .isFalse (fun he => Except.noConfusion he)
  | .ok _, .error _ => .isFalse (fun he => Except.noConfusion he)
  | .ok x, .ok y =>
    if h : x = y then .isTrue (congrArg Except.ok h)
    else .isFalse (fun he => h (Except.ok.inj he))

instance {ε α : Type} [DecidableEq ε] [DecidableEq α] : DecidableEq (Except ε α) :=
  exceptDecEq

/-- A persisted row of one sensor table, as created by `Logger.setup_db`
(logger.py:289-290): `source_id INTEGER PRIMARY KEY, tag TEXT, at REAL,
sent REAL`, followed by sensor-specific columns.  The sensor-specific
columns ride along unexamined in every operation the claims mention
(`mark_sent` touches only `sent`; `upload_data` uses only `source_id` of
the echoed rows), so they are not part of the row model. -/
structure Row where
  source_id : Nat
  tag : Option String
  at_ : Nat
  sent : Option Nat
  deriving DecidableEq, Repr

/-- The SQLite database: one named table of rows per sensor. -/
abbrev Db := List (String × List Row)

/-- Result of one `Logger.mark_sent` call (logger.py:412-428): the table
after the `UPDATE {table} SET sent = ? WHERE source_id IN (...)`, the
`cursor.rowcount` that the function logs, and the Python return value
(the function body has no `return` with a value, so it returns `None`). -/
structure MarkSentResult where
  table : List Row
  rowcount : Nat
  ret : Option Nat
  deriving DecidableEq, Repr

/-- Embeds `Logger.mark_sent` (logger.py:412-428).  With an empty id list
the function returns early without touching the database.  Otherwise the
UPDATE sets `sent = now` for every row whose `source_id` is in `ids`;
note that the SQL has no `AND sent IS NULL` clause, so already-sent rows
are matched (and overwritten) too, and `cursor.rowcount` counts every
matched row. -/
def mark_sent (table : List Row) (ids : List Nat) (now : Nat) : MarkSentResult :=
  if ids.length = 0 then ⟨table, 0, none⟩
  else
    ⟨table.map (fun r => if r.source_id ∈ ids then { r with sent := some now } else r),
     (table.filter (fun r => decide (r.source_id ∈ ids))).length,
     none⟩

/-- The remote response body as seen by `Logger.upload_data`
(logger.py:404-406): either `resp.json()['record']['rows']` is a list of
row objects (each contributing its `source_id` when that key is present,
modelled as `some id` / `none`), or the body is malformed and the access
raises (caught by the bare `except`). -/
inductive RespBody where
  | malformed
  | record (rows : List (Option Nat))
  deriving DecidableEq, Repr

/-- Outcome of the `self.http.request(...)` call in `Logger.upload_data`
(logger.py:398): either the request raises (transport failure), or it
returns a status code and a body. -/
inductive HttpResult where
  | exn
  | ok (status : Nat) (body : RespBody)
  deriving DecidableEq, Repr

/-- Embeds `Logger.upload_data` (logger.py:382-410): returns the list of
`source_id`s accepted by the remote server.  Empty input short-circuits to
`[]`; a transport exception, a status outside 200-299, or a malformed
response body each yield `[]` (the bare `except` catches both the request
and the response-parsing errors). -/
def upload_data (rows : List Row) (resp : HttpResult) : List Nat :=
  if rows = [] then []
  else
    match resp with
    | .exn => []
    | .ok status body =>
      if status < 200 ∨ 300 ≤ status then []
      else
        match body with
        | .malformed => []
        | .record echoed => echoed.filterMap id

/-- The `SELECT * FROM {table} WHERE sent IS NULL` row filter used by
`Logger.fetch_unsent_data` (logger.py:369). -/
def unsentOf (rows : List Row) : List Row :=
  rows.filter (fun r => r.sent.isNone)

/-- One iteration of the loop body of `Logger.upload_unsent_data`
(logger.py:345-349) for a single table: upload the table's unsent rows,
then mark the echoed ids as sent. -/
def forwardTable (rows : List Row) (resp : HttpResult) (now : Nat) : List Row :=
  (mark_sent rows (upload_data (unsentOf rows) resp) now).table

/-- C1 counterexample helper: a row whose `sent` is already set. -/
def sentRow : Row := ⟨1, none, 0, some 5⟩

/-- C1/C2 helper: an unsent row with source_id 1. -/
def unsentRow1 : Row := ⟨1, none, 0, none⟩

/-- C1 (corrected form): the UPDATE in `mark_sent` has no `sent IS NULL`
guard, so it sets `sent = now` for every row whose `source_id` is in the
given set, regardless of the previous `sent` value; a second call with
the same non-trivial id set matches the same rows again (same rowcount,
not zero), overwriting the timestamp. -/
theorem c1_mark_sent_unguarded (table : List Row) (ids : List Nat) (t1 t2 : Nat) :
    (mark_sent table ids t1).table =
      table.map (fun r => if r.source_id ∈ ids then { r with sent := some t1 } else r) ∧
    (mark_sent ((mark_sent table ids t1).table) ids t2).rowcount =
      (mark_sent table ids t1).rowcount := by
  constructor
  · by_cases h : ids.length = 0
    · have hids : ids = [] := List.length_eq_zero.mp h
      subst hids
      simp [mark_sent]
    · simp [mark_sent, h]
  · by_cases h : ids.length = 0
    · simp [mark_sent, h]
    · simp only [mark_sent, if_neg h]
      rw [List.filter_map]
      rw [List.length_map]
      congr 1
      apply List.filter_congr
      intro r _
      by_cases hr : r.source_id ∈ ids <;> simp [hr, Function.comp]

/-- C1 counterexample: a row whose `sent` is already `some 5` is
re-marked to `some 9` (the claim says an already-set `sent` is never
overwritten), and a second `mark_sent` call with the same id set
reports rowcount 1, not 0. -/
theorem c1_counterexample :
    (mark_sent [sentRow] [1] 9).table = [⟨1, none, 0, some 9⟩] ∧
    (mark_sent ((mark_sent [unsentRow1] [1] 5).table) [1] 9).rowcount = 1 := by
  decide

/-- C8 (corrected form): `mark_sent` has no return statement, so it
always returns `None`; the count it logs (`cursor.rowcount`) counts
every row whose `source_id` is in the id set, whether or not that row
was already sent. -/
theorem c8_mark_sent_returns_none (table : List Row) (ids : List Nat) (now : Nat) :
    (mark_sent table ids now).ret = none ∧
    (mark_sent table ids now).rowcount =
      (table.filter (fun r => decide (r.source_id ∈ ids))).length := by
  by_cases h : ids.length = 0
  · have hids : ids = [] := List.length_eq_zero.mp h
    subst hids
    simp [mark_sent]
  · simp [mark_sent, h]

/-- C8 counterexample: marking one unsent row returns `None`, not the
count `1` that the claim says is returned. -/
theorem c8_counterexample :
    (mark_sent [unsentRow1] [1] 9).ret = none ∧
    (mark_sent [unsentRow1] [1] 9).ret ≠ some 1 := by
  decide

/-- C2: on an accepted (2xx) response whose body echoes back a subset of
the uploaded (unsent) rows, the per-table forwarding step marks exactly
the rows whose `source_id` is echoed, and every row whose `source_id` is
not echoed survives unchanged (so an uploaded-but-not-echoed row stays
unsent). -/
theorem c2_partial_acceptance (rows : List Row) (echoed : List (Option Nat))
    (status now : Nat)
    (h2xx : 200 ≤ status ∧ status < 300)
    (hne : unsentOf rows ≠ [])
    (hsub : ∀ i ∈ echoed.filterMap id, i ∈ (unsentOf rows).map Row.source_id) :
    forwardTable rows (.ok status (.record echoed)) now =
      rows.map (fun r =>
        if r.source_id ∈ echoed.filterMap id then { r with sent := some now } else r) ∧
    ∀ r ∈ rows, r.source_id ∉ echoed.filterMap id →
      r ∈ forwardTable rows (.ok status (.record echoed)) now := by
  have hup : upload_data (unsentOf rows) (.ok status (.record echoed)) =
      echoed.filterMap id := by
    simp only [upload_data, if_neg hne]
    have : ¬(status < 200 ∨ 300 ≤ status) := by omega
    simp [this]
  have hmain : forwardTable rows (.ok status (.record echoed)) now =
      rows.map (fun r =>
        if r.source_id ∈ echoed.filterMap id then { r with sent := some now } else r) := by
    unfold forwardTable
    rw [hup]
    by_cases h : (echoed.filterMap id).length = 0
    · have hnil : echoed.filterMap id = [] := List.length_eq_zero.mp h
      rw [hnil]
      simp [mark_sent]
    · simp [mark_sent, h]
  refine ⟨hmain, ?_⟩
  intro r hr hnot
  rw [hmain]
  have : (fun r : Row =>
      if r.source_id ∈ echoed.filterMap id then { r with sent := some now } else r) r = r := by
    simp [hnot]
  exact this ▸ List.mem_map_of_mem _ hr

/-- C2 witness helper: five unsent rows for one table. -/
def rows5 : List Row :=
  [⟨1, none, 0, none⟩, ⟨2, none, 0, none⟩, ⟨3, none, 0, none⟩,
   ⟨4, none, 0, none⟩, ⟨5, none, 0, none⟩]

/-- C2 witness: 5 unsent rows, the server echoes back source_ids 1,2,3:
exactly those three are marked sent (timestamp 9), rows 4 and 5 stay
unsent. -/
theorem c2_witness :
    forwardTable rows5 (.ok 200 (.record [some 1, some 2, some 3])) 9 =
      [⟨1, none, 0, some 9⟩, ⟨2, none, 0, some 9⟩, ⟨3, none, 0, some 9⟩,
       ⟨4, none, 0, none⟩, ⟨5, none, 0, none⟩] :=
  (c2_partial_acceptance rows5 [some 1, some 2, some 3] 200 9
    (by decide) (by decide) (by decide)).1.trans (by decide)

/-- C3: a transport exception, a status outside 200-299, or a malformed
response body each make `upload_data` return no ids, so the per-table
forwarding step leaves the table exactly as it was: no row is marked
sent and the store is unchanged. -/
theorem c3_failure_no_mutation (rows : List Row) (resp : HttpResult) (now : Nat)
    (h : resp = .exn ∨
         (∃ status body, resp = .ok status body ∧ (status < 200 ∨ 300 ≤ status)) ∨
         (∃ status, resp = .ok status .malformed)) :
    forwardTable rows resp now = rows := by
  have hup : upload_data (unsentOf rows) resp = [] := by
    rcases h with h | ⟨status, body, hok, hbad⟩ | ⟨status, hok⟩
    · subst h
      by_cases hempty : unsentOf rows = [] <;> simp [upload_data, hempty]
    · subst hok
      by_cases hempty : unsentOf rows = [] <;> simp [upload_data, hempty, hbad]
    · subst hok
      by_cases hempty : unsentOf rows = [] <;>
        by_cases hbad : status < 200 ∨ 300 ≤ status <;>
          simp [upload_data, hempty, hbad]
  unfold forwardTable
  rw [hup]
  simp [mark_sent]

/-- C3 witness: a 500 response on a one-row batch leaves the row unsent
and the table unchanged. -/
theorem c3_witness :
    forwardTable [unsentRow1] (.ok 500 (.record [some 1])) 9 = [unsentRow1] :=
  c3_failure_no_mutation [unsentRow1] (.ok 500 (.record [some 1])) 9
    (Or.inr (Or.inl ⟨500, .record [some 1], rfl, by decide⟩))

/-- Per-table environment for one forwarding cycle: the remote response
the table's upload would receive, and whether the two SQLite statements
touching it — the `SELECT` in `fetch_unsent_data` (logger.py:369) and the
`UPDATE` in `mark_sent` (logger.py:423) — succeed (`false` models a
raised storage error). -/
structure TableEnv where
  resp : HttpResult
  fetchOk : Bool
  markOk : Bool

/-- The `tables` argument of `Logger.fetch_unsent_data` /
`upload_unsent_data`: a Python value that is a string, a list, or
anything else (`other` covers every non-string non-list value). -/
inductive TablesArg where
  | str (s : String)
  | list (l : List String)
  | other
  deriving DecidableEq, Repr

/-- The argument normalization at the top of `Logger.fetch_unsent_data`
(logger.py:352-357): the string `'all'` expands to the registered sensor
names, any other string becomes a singleton list, a list is kept, and
every other value becomes the empty list. -/
def normalizeTables (sensors : List String) : TablesArg → List String
  | .str s => if s = "all" then sensors else [s]
  | .list l => l
  | .other => []

/-- First table with the given name (`SELECT * FROM {table}` resolves the
name against the database; a missing table raises a storage error). -/
def lookupTable : Db → String → Option (List Row)
  | [], _ => none
  | (n, rows) :: rest, t => if n = t then some rows else lookupTable rest t

/-- The `SELECT`-per-table loop of `Logger.fetch_unsent_data`
(logger.py:368-376): each requested table contributes its unsent rows; a
failing or missing table raises a storage error that aborts the whole
fetch (the function has no try/except). -/
def fetchLoop (db : Db) (env : String → TableEnv) :
    List String → Except PyError (List (String × List Row))
  | [] => .ok []
  | t :: rest =>
    if (env t).fetchOk then
      match lookupTable db t with
      | some rows =>
        match fetchLoop db env rest with
        | .ok l => .ok ((t, unsentOf rows) :: l)
        | .error e => .error e
      | none => .error .storageError
    else .error .storageError

/-- Embeds `Logger.fetch_unsent_data` (logger.py:351-380).  When the
normalized table list is empty the function falls into the bare
`return` (logger.py:359-360) and yields Python `None`, modelled as
`.ok none`; otherwise it returns the per-table unsent rows, or
propagates a storage error. -/
def fetch_unsent_data (sensors : List String) (db : Db) (env : String → TableEnv)
    (targ : TablesArg) : Except PyError (Option (List (String × List Row))) :=
  let tables := normalizeTables sensors targ
  if tables = [] then .ok none
  else
    match fetchLoop db env tables with
    | .error e => .error e
    | .ok l => .ok (some l)

/-- Applies `mark_sent`'s UPDATE to the named table of the database. -/
def dbMarkSent (db : Db) (name : String) (ids : List Nat) (now : Nat) : Db :=
  db.map (fun p => if p.1 = name then (p.1, (mark_sent p.2 ids now).table) else p)

/-- The upload-and-mark loop of `Logger.upload_unsent_data`
(logger.py:347-349): tables are processed in order; `upload_data`
swallows every transport failure into `[]` (so the loop continues), an
empty id list makes `mark_sent` return before touching the database, and
a storage error raised by `mark_sent`'s UPDATE aborts the loop, leaving
the remaining tables unprocessed but keeping the updates already
committed for earlier tables. -/
def forwardLoop (env : String → TableEnv) (now : Nat) :
    List (String × List Row) → Db → Db × Option PyError
  | [], db => (db, none)
  | (name, rows) :: rest, db =>
    let ids := upload_data rows (env name).resp
    if ids = [] then forwardLoop env now rest db
    else if (env name).markOk then forwardLoop env now rest (dbMarkSent db name ids now)
    else (db, some .storageError)

/-- Embeds `Logger.upload_unsent_data` (logger.py:345-349): fetch the
unsent rows of the requested tables, then upload and mark each table in
turn.  When the fetch returned Python `None` (empty normalized table
list), `all_data.items()` raises `AttributeError`.  The result pairs the
database state at the end of the call with the exception escaping it, if
any. -/
def upload_unsent_data (sensors : List String) (db : Db) (env : String → TableEnv)
    (targ : TablesArg) (now : Nat) : Db × Option PyError :=
  match fetch_unsent_data sensors db env targ with
  | .error e => (db, some e)
  | .ok none => (db, some .attributeError)
  | .ok (some fetched) => forwardLoop env now fetched db

/-- With distinct table names, looking up a table of the database finds
its own rows. -/
theorem lookupTable_of_nodup (db : Db) (hn : (db.map Prod.fst).Nodup) :
    ∀ p ∈ db, lookupTable db p.1 = some p.2 := by
  induction db with
  | nil => intro p hp; cases hp
  | cons q rest ih =>
    intro p hp
    rcases List.mem_cons.mp hp with h | h
    · subst h
      simp [lookupTable]
    · have hq : q.1 ≠ p.1 := by
        intro he
        have : q.1 ∈ rest.map Prod.fst := he ▸ List.mem_map_of_mem Prod.fst h
        exact (List.nodup_cons.mp (by simpa using hn)).1 this
      simp only [lookupTable, if_neg hq]
      exact ih (List.nodup_cons.mp (by simpa using hn)).2 p h

/-- If every requested table exists and its SELECT succeeds, the fetch
loop returns each table's unsent rows. -/
theorem fetchLoop_ok (db : Db) (env : String → TableEnv) (names : List String)
    (hf : ∀ t ∈ names, (env t).fetchOk = true)
    (hl : ∀ t ∈ names, (lookupTable db t).isSome) :
    fetchLoop db env names =
      .ok (names.map (fun t => (t, unsentOf ((lookupTable db t).getD [])))) := by
  induction names with
  | nil => rfl
  | cons t rest ih =>
    have hft := hf t (List.mem_cons_self t rest)
    have hlt := hl t (List.mem_cons_self t rest)
    obtain ⟨rows, hrows⟩ := Option.isSome_iff_exists.mp hlt
    have ihr := ih (fun s hs => hf s (List.mem_cons_of_mem _ hs))
      (fun s hs => hl s (List.mem_cons_of_mem _ hs))
    simp [fetchLoop, hft, hrows, ihr]

/-- Marking a table that is not present by name leaves the database
unchanged. -/
theorem dbMarkSent_not_mem (db : Db) (name : String) (ids : List Nat) (now : Nat)
    (h : name ∉ db.map Prod.fst) : dbMarkSent db name ids now = db := by
  unfold dbMarkSent
  conv_rhs => rw [← List.map_id db]
  apply List.map_congr_left
  intro p hp
  have : p.1 ≠ name := by
    intro he
    exact h (he ▸ List.mem_map_of_mem Prod.fst hp)
  simp [this]

/-- `mark_sent` with an empty id set leaves the table untouched. -/
theorem mark_sent_nil (table : List Row) (now : Nat) :
    (mark_sent table [] now).table = table := rfl

/-- When no storage statement fails, the forwarding loop processes every
fetched table independently: a prefix of already-processed tables is
untouched, and each remaining table ends up exactly as its own
`forwardTable` step leaves it. -/
theorem forwardLoop_all_ok (env : String → TableEnv) (now : Nat) :
    ∀ (suf pre : Db),
      ((pre ++ suf).map Prod.fst).Nodup →
      (∀ s, (env s).markOk = true) →
      forwardLoop env now (suf.map (fun p => (p.1, unsentOf p.2))) (pre ++ suf) =
        (pre ++ suf.map (fun p => (p.1, forwardTable p.2 (env p.1).resp now)), none) := by
  intro suf
  induction suf with
  | nil => intro pre _ _; simp [forwardLoop]
  | cons q rest ih =>
    intro pre hnodup hmark
    obtain ⟨n, rows⟩ := q
    have hmid : n ∉ (pre.map Prod.fst) ∧ n ∉ (rest.map Prod.fst) := by
      have h1 : ((pre.map Prod.fst) ++ n :: (rest.map Prod.fst)).Nodup := by
        simpa using hnodup
      obtain ⟨-, h2, hdisj⟩ := List.nodup_append.mp h1
      exact ⟨fun hmem => hdisj hmem (List.mem_cons_self n _),
        (List.nodup_cons.mp h2).1⟩
    have hassoc : pre ++ (n, rows) :: rest = (pre ++ [(n, rows)]) ++ rest := by
      simp
    by_cases hids : upload_data (unsentOf rows) (env n).resp = []
    · have hfwd : forwardTable rows (env n).resp now = rows := by
        unfold forwardTable
        rw [hids, mark_sent_nil]
      have ihr := ih (pre ++ [(n, rows)]) (by simpa using hnodup) hmark
      calc forwardLoop env now
            (((n, rows) :: rest).map (fun p => (p.1, unsentOf p.2))) (pre ++ (n, rows) :: rest)
          = forwardLoop env now (rest.map (fun p => (p.1, unsentOf p.2)))
              ((pre ++ [(n, rows)]) ++ rest) := by
            rw [hassoc]
            simp only [List.map_cons, forwardLoop, hids]
            simp
        _ = ((pre ++ [(n, rows)]) ++
              rest.map (fun p => (p.1, forwardTable p.2 (env p.1).resp now)), none) := ihr
        _ = (pre ++ ((n, rows) :: rest).map
              (fun p => (p.1, forwardTable p.2 (env p.1).resp now)), none) := by
            simp [hfwd]
    · have hmarkdb : dbMarkSent (pre ++ (n, rows) :: rest) n
          (upload_data (unsentOf rows) (env n).resp) now =
          pre ++ (n, forwardTable rows (env n).resp now) :: rest := by
        have hpre := dbMarkSent_not_mem pre n
          (upload_data (unsentOf rows) (env n).resp) now hmid.1
        have hrest := dbMarkSent_not_mem rest n
          (upload_data (unsentOf rows) (env n).resp) now hmid.2
        unfold dbMarkSent at hpre hrest ⊢
        rw [List.map_append, List.map_cons, hpre, hrest]
        simp [forwardTable]
      have hnodup2 : (((pre ++ [(n, forwardTable rows (env n).resp now)]) ++ rest).map
          Prod.fst).Nodup := by
        have : ((pre ++ [(n, forwardTable rows (env n).resp now)]) ++ rest).map Prod.fst =
            (pre ++ (n, rows) :: rest).map Prod.fst := by
          simp
        rw [this]; exact hnodup
      have ihr := ih (pre ++ [(n, forwardTable rows (env n).resp now)]) hnodup2 hmark
      calc forwardLoop env now
            (((n, rows) :: rest).map (fun p => (p.1, unsentOf p.2))) (pre ++ (n, rows) :: rest)
          = forwardLoop env now (rest.map (fun p => (p.1, unsentOf p.2)))
              ((pre ++ [(n, forwardTable rows (env n).resp now)]) ++ rest) := by
            simp only [List.map_cons, forwardLoop, hids, hmark n, if_neg hids, if_true]
            rw [hmarkdb]
            simp
        _ = ((pre ++ [(n, forwardTable rows (env n).resp now)]) ++
              rest.map (fun p => (p.1, forwardTable p.2 (env p.1).resp now)), none) := ihr
        _ = (pre ++ ((n, rows) :: rest).map
              (fun p => (p.1, forwardTable p.2 (env p.1).resp now)), none) := by
            simp

/-- C4 (corrected form): when no SQLite statement fails (all SELECTs and
UPDATEs succeed), a full `upload_unsent_data('all')` cycle over a
non-empty store with distinct table names processes every table, each
exactly as its own per-table forwarding step dictates — so transport
failures (request exceptions, non-2xx statuses, malformed bodies) on one
table never prevent the forwarding of another.  Storage failures do not
enjoy this isolation; see the counterexample. -/
theorem c4_transport_isolation (db : Db) (env : String → TableEnv) (now : Nat)
    (hne : db ≠ [])
    (hnodup : (db.map Prod.fst).Nodup)
    (hfetch : ∀ s, (env s).fetchOk = true)
    (hmark : ∀ s, (env s).markOk = true) :
    upload_unsent_data (db.map Prod.fst) db env (.str "all") now =
      (db.map (fun p => (p.1, forwardTable p.2 (env p.1).resp now)), none) := by
  have hnames : normalizeTables (db.map Prod.fst) (.str "all") = db.map Prod.fst := by
    simp [normalizeTables]
  have hnonnil : db.map Prod.fst ≠ [] := by
    intro h
    exact hne (List.map_eq_nil_iff.mp h)
  have hlook : ∀ t ∈ db.map Prod.fst, (lookupTable db t).isSome := by
    intro t ht
    obtain ⟨p, hp, hpt⟩ := List.mem_map.mp ht
    rw [← hpt, lookupTable_of_nodup db hnodup p hp]
    rfl
  have hfl := fetchLoop_ok db env (db.map Prod.fst)
    (fun t _ => hfetch t) hlook
  have hmaps : (db.map Prod.fst).map
      (fun t => (t, unsentOf ((lookupTable db t).getD []))) =
      db.map (fun p => (p.1, unsentOf p.2)) := by
    rw [List.map_map]
    apply List.map_congr_left
    intro p hp
    simp [Function.comp, lookupTable_of_nodup db hnodup p hp]
  have hfetchres : fetch_unsent_data (db.map Prod.fst) db env (.str "all") =
      .ok (some (db.map (fun p => (p.1, unsentOf p.2)))) := by
    unfold fetch_unsent_data
    rw [hnames]
    simp only [if_neg hnonnil]
    rw [hfl, hmaps]
  unfold upload_unsent_data
  rw [hfetchres]
  have := forwardLoop_all_ok env now db [] (by simpa using hnodup) hmark
  simpa using this

/-- C4 counterexample database: two one-row tables — logically two
sensors, each with one unsent reading. -/
def cdb : Db := [("cpu", [⟨1, none, 0, none⟩]), ("vmemory", [⟨2, none, 0, none⟩])]

/-- C4 counterexample environment: both uploads are accepted and echoed
in full, but the UPDATE marking the `cpu` table raises a storage
error. -/
def cenv : String → TableEnv := fun n =>
  if n = "cpu" then ⟨.ok 200 (.record [some 1]), true, false⟩
  else ⟨.ok 200 (.record [some 2]), true, true⟩

/-- C4 counterexample: a storage failure while marking the first table
aborts the whole cycle with nothing marked — the second table's row is
left unsent even though, processed on its own, its accepted response
would have marked it (second conjunct).  So a storage failure on one
table does prevent the forwarding of another. -/
theorem c4_counterexample :
    upload_unsent_data ["cpu", "vmemory"] cdb cenv (.str "all") 7 =
      (cdb, some .storageError) ∧
    forwardTable [⟨2, none, 0, none⟩] (cenv "vmemory").resp 7 = [⟨2, none, 0, some 7⟩] := by
  constructor
  · rfl
  · rfl

/-- C4 witness database: the same two tables, used with a transport
failure instead of a storage failure. -/
def cdb2 : Db := [("cpu", [⟨1, none, 0, none⟩]), ("vmemory", [⟨2, none, 0, none⟩])]

/-- C4 witness environment: the `cpu` upload dies with a transport
exception, the `vmemory` upload is accepted and echoed; no storage
statement fails. -/
def cenv2 : String → TableEnv := fun n =>
  ⟨if n = "cpu" then .exn else .ok 200 (.record [some 2]), true, true⟩

/-- C4 witness: with a transport failure on `cpu` and an accepted upload
for `vmemory`, the cycle still forwards `vmemory` — its row is marked
sent while `cpu`'s row stays unsent, and no error escapes. -/
theorem c4_witness :
    upload_unsent_data (cdb2.map Prod.fst) cdb2 cenv2 (.str "all") 7 =
      ([("cpu", [⟨1, none, 0, none⟩]), ("vmemory", [⟨2, none, 0, some 7⟩])], none) :=
  (c4_transport_isolation cdb2 cenv2 7 (by decide)
    (by decide) (fun _ => rfl) (fun _ => rfl)).trans (by decide)

/-- C10: any `tables` argument that normalizes to the empty list (an
empty list literal, or any non-string non-list value) makes
`fetch_unsent_data` return Python `None` instead of an empty mapping,
and `upload_unsent_data` then raises `AttributeError` on
`None.items()`, leaving the store untouched. -/
theorem c10_empty_tables (sensors : List String) (db : Db) (env : String → TableEnv)
    (targ : TablesArg) (now : Nat)
    (h : normalizeTables sensors targ = []) :
    fetch_unsent_data sensors db env targ = .ok none ∧
    upload_unsent_data sensors db env targ now = (db, some .attributeError) := by
  have hf : fetch_unsent_data sensors db env targ = .ok none := by
    unfold fetch_unsent_data
    rw [h]
    rfl
  exact ⟨hf, by unfold upload_unsent_data; rw [hf]⟩

/-- C10 witness: one registered sensor, a non-list non-string `tables`
argument: the fetch returns `None` and the cycle raises
`AttributeError` without touching the (empty) store. -/
theorem c10_witness :
    fetch_unsent_data ["cpu"] [] cenv2 .other = .ok none ∧
    upload_unsent_data ["cpu"] [] cenv2 .other 0 = ([], some .attributeError) :=
  c10_empty_tables ["cpu"] [] cenv2 .other 0 (by decide)

/-! ## Light sensor (`Tsl2591Sensor`, logger.py:44-151) -/

/-- Outcome of one hardware property read on the TSL2591: the value, or
a `RuntimeError` that `sensor_data` catches and turns into `None`
(logger.py:106-122). -/
inductive ReadResult (α : Type) where
  | ok (v : α)
  | err
  deriving DecidableEq, Repr

/-- `_TSL2591_LUX_DF` (logger.py:44; the leading underscore is dropped
for Lean). -/
def TSL2591_LUX_DF : ℚ := 408

/-- `_TSL2591_LUX_COEFB = 1.64` (logger.py:45). -/
def TSL2591_LUX_COEFB : ℚ := 164 / 100

/-- `_TSL2591_LUX_COEFC = 0.59` (logger.py:46). -/
def TSL2591_LUX_COEFC : ℚ := 59 / 100

/-- `_TSL2591_LUX_COEFD = 0.86` (logger.py:47). -/
def TSL2591_LUX_COEFD : ℚ := 86 / 100

/-- Splits a character list at every occurrence of `sep` (the behaviour
of Python `str.split(sep)` for a one-character separator). -/
def splitOnCharAux (sep : Char) : List Char → List Char → List (List Char)
  | [], acc => [acc.reverse]
  | c :: cs, acc =>
    if c = sep then acc.reverse :: splitOnCharAux sep cs []
    else splitOnCharAux sep cs (c :: acc)

/-- Python `str.split(sep)` for a one-character separator. -/
def splitOnChar (sep : Char) (cs : List Char) : List (List Char) :=
  splitOnCharAux sep cs []

/-- Python `str.strip()`: drop leading and trailing whitespace. -/
def strip (cs : List Char) : List Char :=
  ((cs.dropWhile Char.isWhitespace).reverse.dropWhile Char.isWhitespace).reverse

/-- Splits `k=v` at the first `=` (Python `name_value.split('=', 1)`
inside `urllib.parse.parse_qsl`); `none` when there is no `=`. -/
def splitFirstEq : List Char → Option (List Char × List Char)
  | [] => none
  | c :: cs =>
    if c = '=' then some ([], cs)
    else
      match splitFirstEq cs with
      | none => none
      | some (k, v) => some (c :: k, v)

/-- The `'+'` → space substitution `urllib.parse.parse_qsl` applies to
names and values. -/
def plusToSpace (cs : List Char) : List Char :=
  cs.map (fun c => if c = '+' then ' ' else c)

/-- Models `urllib.parse.parse_qs` (as called by `option_in_tag`,
logger.py:60) as the ordered key/value pair list `parse_qsl` builds:
split on `&`, keep only `k=v` tokens with a non-empty value
(`keep_blank_values` is False), apply the `+` → space substitution.
Percent-decoding is not modelled: no tag in this development (nor any
input the claims mention) contains a `%` escape. -/
def parse_qs (cs : List Char) : List (List Char × List Char) :=
  (splitOnChar '&' cs).filterMap (fun tok =>
    if tok = [] then none
    else
      match splitFirstEq tok with
      | none => none
      | some (k, v) => if v = [] then none else some (plusToSpace k, plusToSpace v))

/-- First value stored under `key` (`parse_qs` groups values per key in
insertion order, and `option_in_tag` takes `d[key][0]`). -/
def lookupQs : List (List Char × List Char) → List Char → Option (List Char)
  | [], _ => none
  | (k, v) :: rest, key => if k = key then some v else lookupQs rest key

/-- The `for p in parts` loop of `option_in_tag` (logger.py:59-62):
first comma-segment whose parsed query string contains `key` wins. -/
def findKey : List (List Char) → List Char → Option String
  | [], _ => none
  | p :: ps, key =>
    match lookupQs (parse_qs (strip p)) key with
    | some v => some (String.mk v)
    | none => findKey ps key

/-- Embeds `option_in_tag` (logger.py:57-63).  The Python parameter
`tag` may be `None` (the Logger's configured tag is optional): in that
case `tag.split(',')` raises `AttributeError`, which nothing in the
call chain catches. -/
def option_in_tag (tag : Option String) (key : String) : Except PyError (Option String) :=
  match tag with
  | none => .error .attributeError
  | some t => .ok (findKey (splitOnChar ',' t.data) key.data)

/-- Models Python `float(s)` on plain decimal literals: optional sign,
digits with at most one decimal point, surrounding whitespace allowed.
Scientific notation, `inf`/`nan` and underscores are not modelled (no
input in this development uses them); every malformed string maps to
`none` (the `ValueError` branch). -/
def pyFloat (s : String) : Option ℚ :=
  let t := strip s.data
  let sign : ℚ × List Char :=
    match t with
    | '-' :: cs => (-1, cs)
    | '+' :: cs => (1, cs)
    | cs => (1, cs)
  match splitOnChar '.' sign.2 with
  | [ip] =>
    if ip ≠ [] ∧ ip.all Char.isDigit then
      some (sign.1 * (ip.foldl (fun a c => a * 10 + (c.toNat - 48)) 0 : Nat))
    else none
  | [ip, fp] =>
    if (ip ≠ [] ∨ fp ≠ []) ∧ ip.all Char.isDigit ∧ fp.all Char.isDigit then
      some (sign.1 *
        (((ip ++ fp).foldl (fun a c => a * 10 + (c.toNat - 48)) 0 : Nat) / (10 ^ fp.length : ℚ)))
    else none
  | _ => none

/-- The tag mutation on the overflow-fallback path (logger.py:135-138):
`f'{tag},overflow'` when the tag is truthy (non-`None`, non-empty),
plain `'overflow'` otherwise. -/
def overflowTag : Option String → String
  | some t => if t = "" then "overflow" else t ++ ",overflow"
  | none => "overflow"

/-- The `nd` scaling block (logger.py:141-147): a found option string is
passed to `float`; on success the lux is multiplied by it, a
`ValueError` is swallowed by the bare `except: pass`. -/
def applyNd (lux : ℚ) (nd : Option String) : ℚ :=
  match nd with
  | some s =>
    match pyFloat s with
    | some q => lux * q
    | none => lux
  | none => lux

/-- The dict returned by `Tsl2591Sensor.sensor_data` on success
(logger.py:149). -/
structure LightData where
  tag : Option String
  visible : Nat
  infrared : Nat
  lux : ℚ
  deriving DecidableEq, Repr

/-- The spec's documented overflow-correction formula (spec §4.1):
`cpl = (integration_time_ms * gain_multiplier) / device_lux_scale_factor`,
`channel0 = (visible + infrared) mod 65536`, `channel1 = infrared`,
`lux = max((channel0 - B*channel1)/cpl, (C*channel0 - D*channel1)/cpl)`
with the documented coefficients, 100 ms integration and 1x gain. -/
def specOverflowLux (visible infrared : Nat) : ℚ :=
  let cpl : ℚ := (100 * 1) / TSL2591_LUX_DF
  let channel0 : ℚ := (((visible + infrared) % 65536 : Nat) : ℚ)
  let channel1 : ℚ := (infrared : ℚ)
  max ((channel0 - TSL2591_LUX_COEFB * channel1) / cpl)
      ((TSL2591_LUX_COEFC * channel0 - TSL2591_LUX_COEFD * channel1) / cpl)

/-- Embeds `Tsl2591Sensor.sensor_data` (logger.py:100-151).  The three
hardware reads are passed in as `ReadResult`s (the source catches each
`RuntimeError` and substitutes `None`).  `if visible and infrared:` is
Python truthiness, so a channel that read back `0` counts as missing;
inside, a missing lux is recomputed with the overflow formula
(`atime = 100.0`, `again = 1.0`, logger.py:127-134) and the tag gains
the `overflow` marker; then the optional `nd` multiplier from the tag is
applied.  With a `None` tag on the non-fallback path, `option_in_tag`
raises `AttributeError`. -/
def sensor_data (visR infR : ReadResult Nat) (luxR : ReadResult ℚ) (tag0 : Option String) :
    Except PyError (Option LightData) :=
  match visR, infR with
  | .ok visible, .ok infrared =>
    if visible = 0 ∨ infrared = 0 then .ok none
    else
      let p : ℚ × Option String :=
        match luxR with
        | .ok l => (l, tag0)
        | .err =>
          let cpl : ℚ := (100 * 1) / TSL2591_LUX_DF
          let channel_0 : ℚ := (((visible + infrared) % 65536 : Nat) : ℚ)
          let channel_1 : ℚ := (infrared : ℚ)
          let lux1 := (channel_0 - TSL2591_LUX_COEFB * channel_1) / cpl
          let lux2 := (TSL2591_LUX_COEFC * channel_0 - TSL2591_LUX_COEFD * channel_1) / cpl
          (max lux1 lux2, some (overflowTag tag0))
      match option_in_tag p.2 "nd" with
      | .error e => .error e
      | .ok nd => .ok (some ⟨p.2, visible, infrared, applyNd p.1 nd⟩)
  | _, _ => .ok none

/-- The batch element `Sensor.collect` builds (logger.py:31-36). -/
structure CollectItem where
  table : String
  at_ : Nat
  data : LightData
  deriving DecidableEq, Repr

/-- Embeds `Sensor.collect` (logger.py:31-36) for the luminosity
sensor: calls `sensor_data` with the Logger's configured tag; a
non-empty data dict becomes a batch entry, `None` is skipped, an
exception propagates (there is no try/except between `collect_data` and
`option_in_tag`). -/
def collect (dt : Nat) (tag : Option String) (visR infR : ReadResult Nat)
    (luxR : ReadResult ℚ) : Except PyError (Option CollectItem) :=
  match sensor_data visR infR luxR tag with
  | .error e => .error e
  | .ok (some d) => .ok (some ⟨"luminosity", dt, d⟩)
  | .ok none => .ok none

/-- The `nd` multiplier a tag yields, if any: the looked-up option
string when it parses as a float. -/
def ndMultiplier (tag : Option String) : Option ℚ :=
  match option_in_tag tag "nd" with
  | .ok (some s) => pyFloat s
  | _ => none

/-- Lux of a produced reading, `none` when no reading was produced or
an exception escaped. -/
def luxOf : Except PyError (Option LightData) → Option ℚ
  | .ok (some r) => some r.lux
  | _ => none

/-- C5 (corrected form): when the lux read fails but both raw channels
read back nonzero values and the (overflow-extended) tag embeds no
usable `nd` multiplier, the produced reading carries exactly the spec's
documented overflow-correction lux, and its tag is the prior tag content
with an `overflow` marker comma-joined (or plain `overflow` when there
was none). -/
theorem c5_overflow_fallback (v ir : Nat) (tag0 : Option String)
    (hv : v ≠ 0) (hir : ir ≠ 0)
    (hnd : ndMultiplier (some (overflowTag tag0)) = none) :
    sensor_data (.ok v) (.ok ir) .err tag0 =
      .ok (some ⟨some (overflowTag tag0), v, ir, specOverflowLux v ir⟩) := by
  have hvz : ¬(v = 0 ∨ ir = 0) := by tauto
  unfold sensor_data
  simp only [if_neg hvz]
  have hoit : option_in_tag (some (overflowTag tag0)) "nd" =
      .ok (findKey (splitOnChar ',' (overflowTag tag0).data) "nd".data) := rfl
  cases hfk : findKey (splitOnChar ',' (overflowTag tag0).data) "nd".data with
  | none =>
    simp only [option_in_tag, hfk]
    simp [applyNd, specOverflowLux]
  | some s =>
    have hpf : pyFloat s = none := by
      unfold ndMultiplier at hnd
      rw [hoit, hfk] at hnd
      exact hnd
    simp only [option_in_tag, hfk]
    simp [applyNd, hpf, specOverflowLux]

/-- C5 witness: the spec's concrete overflow instance, visible =
554840886, infrared = 8478, no configured tag: the reading carries the
documented formula's lux and the tag `overflow`. -/
theorem c5_witness :
    sensor_data (.ok 554840886) (.ok 8478) .err none =
      .ok (some ⟨some (overflowTag none), 554840886, 8478, specOverflowLux 554840886 8478⟩) :=
  c5_overflow_fallback 554840886 8478 none (by decide) (by decide) (by decide)

/-- Helper: the full overflow path of `sensor_data` in one equation —
lux read failed, channels nonzero: the reading carries the overflow tag
and the formula lux scaled by whatever `nd` option the extended tag
yields. -/
theorem sensorData_overflow_path (v ir : Nat) (tag0 : Option String)
    (hz : ¬(v = 0 ∨ ir = 0)) :
    sensor_data (.ok v) (.ok ir) .err tag0 =
      .ok (some ⟨some (overflowTag tag0), v, ir,
        applyNd (specOverflowLux v ir)
          (findKey (splitOnChar ',' (overflowTag tag0).data) "nd".data)⟩) := by
  simp [sensor_data, hz, option_in_tag, specOverflowLux]

/-- C5 counterexample: with a prior tag of `nd=2.0` the produced lux is
62702.0928 — twice the documented formula value 31351.0464 — not the
formula value the claim states (the tag multiplier is applied after the
fallback). -/
theorem c5_counterexample :
    luxOf (sensor_data (.ok 554840886) (.ok 8478) .err (some "nd=2.0")) =
      some (39188808 / 625) ∧
    specOverflowLux 554840886 8478 = 19594404 / 625 ∧
    (39188808 / 625 : ℚ) ≠ 19594404 / 625 := by
  have hmod : ((554840886 + 8478) % 65536 : ℕ) = 21588 := by decide
  have hspec : specOverflowLux 554840886 8478 = 19594404 / 625 := by
    simp only [specOverflowLux, TSL2591_LUX_DF, TSL2591_LUX_COEFB,
      TSL2591_LUX_COEFC, TSL2591_LUX_COEFD]
    rw [hmod]
    rw [max_eq_left (by norm_num)]
    norm_num
  refine ⟨?_, hspec, by norm_num⟩
  have hz : ¬((554840886 : ℕ) = 0 ∨ (8478 : ℕ) = 0) := by decide
  have hfk : findKey (splitOnChar ',' (overflowTag (some "nd=2.0")).data) "nd".data =
      some "2.0" := by decide
  have hpf : pyFloat "2.0" = some ((1 : ℚ) * (((20 : ℕ) : ℚ) / 10 ^ (1 : ℕ))) := rfl
  rw [sensorData_overflow_path 554840886 8478 (some "nd=2.0") hz, hfk]
  simp only [luxOf, applyNd, hpf, hspec]
  norm_num

/-- C6 (corrected form): a reading is produced iff both raw channel
reads succeeded with *nonzero* values (Python truthiness treats a zero
read like a failed one) and the `nd` lookup does not blow up — that is,
the configured tag is a string or the lux read failed (cf. C9).  And
whenever either channel is unavailable-or-zero, `sensor_data` returns
`None`, never a partial reading. -/
theorem c6_reading_iff (visR infR : ReadResult Nat) (luxR : ReadResult ℚ)
    (tag0 : Option String) :
    ((∃ r, sensor_data visR infR luxR tag0 = .ok (some r)) ↔
      (∃ v ir, visR = .ok v ∧ infR = .ok ir ∧ v ≠ 0 ∧ ir ≠ 0 ∧
        (tag0 ≠ none ∨ luxR = .err))) ∧
    ((∀ v ir, ¬(visR = .ok v ∧ infR = .ok ir ∧ v ≠ 0 ∧ ir ≠ 0)) →
      sensor_data visR infR luxR tag0 = .ok none) := by
  constructor
  · constructor
    · rintro ⟨r, hr⟩
      cases visR with
      | err => simp [sensor_data] at hr
      | ok v =>
        cases infR with
        | err => simp [sensor_data] at hr
        | ok ir =>
          by_cases hz : v = 0 ∨ ir = 0
          · simp [sensor_data, hz] at hr
          · refine ⟨v, ir, rfl, rfl, fun h => hz (Or.inl h), fun h => hz (Or.inr h), ?_⟩
            by_contra hcon
            push_neg at hcon
            obtain ⟨htag, hlux⟩ := hcon
            subst htag
            cases luxR with
            | err => exact hlux rfl
            | ok l => simp [sensor_data, hz, option_in_tag] at hr
    · rintro ⟨v, ir, hvis, hinf, hv, hir, hrest⟩
      subst hvis; subst hinf
      have hz : ¬(v = 0 ∨ ir = 0) := by tauto
      rcases hrest with htag | hlux
      · obtain ⟨t, ht⟩ := Option.ne_none_iff_exists'.mp htag
        subst ht
        cases luxR with
        | ok l =>
          exact ⟨⟨some t, v, ir,
            applyNd l (findKey (splitOnChar ',' t.data) "nd".data)⟩, by
              simp [sensor_data, hz, option_in_tag]⟩
        | err =>
          exact ⟨⟨some (overflowTag (some t)), v, ir,
            applyNd (specOverflowLux v ir)
              (findKey (splitOnChar ',' (overflowTag (some t)).data) "nd".data)⟩, by
              simp [sensor_data, hz, option_in_tag, specOverflowLux]⟩
      · subst hlux
        exact ⟨⟨some (overflowTag tag0), v, ir,
          applyNd (specOverflowLux v ir)
            (findKey (splitOnChar ',' (overflowTag tag0).data) "nd".data)⟩, by
            simp [sensor_data, hz, option_in_tag, specOverflowLux]⟩
  · intro h
    cases visR with
    | err => simp [sensor_data]
    | ok v =>
      cases infR with
      | err => simp [sensor_data]
      | ok ir =>
        have hz : v = 0 ∨ ir = 0 := by
          by_contra hcon
          push_neg at hcon
          exact h v ir ⟨rfl, rfl, hcon.1, hcon.2⟩
        simp [sensor_data, hz]

/-- C6 counterexample: both raw channels read back successfully
(`visible = 0`, `infrared = 5`) and even the lux read succeeded, yet no
reading is produced — the truthiness test treats the zero channel as
missing, refuting "produced iff both raw channels were read
successfully". -/
theorem c6_counterexample :
    sensor_data (.ok 0) (.ok 5) (.ok 3) (some "t") = .ok none := rfl

/-- C6 witness: a failed visible read yields `None` (absent), per the
second conjunct of the corrected claim. -/
theorem c6_witness :
    sensor_data .err (.ok 5) (.ok 3) none = .ok none :=
  (c6_reading_iff .err (.ok 5) (.ok 3) none).2 (fun _ _ h => by cases h.1)

/-- C7: a tag whose first `nd` option parses as a float scales the
reported lux by it; a malformed `nd` value leaves the lux unchanged and
raises nothing; a tag with no `nd` option leaves the lux unchanged. -/
theorem c7_nd_scaling (v ir : Nat) (l : ℚ) (t : String)
    (hv : v ≠ 0) (hir : ir ≠ 0) :
    (∀ s q, option_in_tag (some t) "nd" = .ok (some s) → pyFloat s = some q →
      sensor_data (.ok v) (.ok ir) (.ok l) (some t) = .ok (some ⟨some t, v, ir, l * q⟩)) ∧
    (∀ s, option_in_tag (some t) "nd" = .ok (some s) → pyFloat s = none →
      sensor_data (.ok v) (.ok ir) (.ok l) (some t) = .ok (some ⟨some t, v, ir, l⟩)) ∧
    (option_in_tag (some t) "nd" = .ok none →
      sensor_data (.ok v) (.ok ir) (.ok l) (some t) = .ok (some ⟨some t, v, ir, l⟩)) := by
  have hz : ¬(v = 0 ∨ ir = 0) := by tauto
  have hoit : option_in_tag (some t) "nd" =
      .ok (findKey (splitOnChar ',' t.data) "nd".data) := rfl
  refine ⟨?_, ?_, ?_⟩
  · intro s q hs hq
    rw [hoit] at hs
    have hfk : findKey (splitOnChar ',' t.data) "nd".data = some s :=
      Except.ok.inj hs
    simp [sensor_data, hz, option_in_tag, hfk, applyNd, hq]
  · intro s hs hq
    rw [hoit] at hs
    have hfk : findKey (splitOnChar ',' t.data) "nd".data = some s :=
      Except.ok.inj hs
    simp [sensor_data, hz, option_in_tag, hfk, applyNd, hq]
  · intro hs
    rw [hoit] at hs
    have hfk : findKey (splitOnChar ',' t.data) "nd".data = none :=
      Except.ok.inj hs
    simp [sensor_data, hz, option_in_tag, hfk, applyNd]

/-- C7 witness: `nd=2.0` doubles a lux of 7 to 14; `nd=abc` leaves it at
7 and no error is raised. -/
theorem c7_witness :
    sensor_data (.ok 3) (.ok 5) (.ok 7) (some "nd=2.0") =
      .ok (some ⟨some "nd=2.0", 3, 5, 14⟩) ∧
    sensor_data (.ok 3) (.ok 5) (.ok 7) (some "nd=abc") =
      .ok (some ⟨some "nd=abc", 3, 5, 7⟩) :=
  ⟨((c7_nd_scaling 3 5 7 "nd=2.0" (by decide) (by decide)).1 "2.0"
      ((1 : ℚ) * (((20 : ℕ) : ℚ) / 10 ^ (1 : ℕ))) (by decide) rfl).trans (by
        have h14 : (7 : ℚ) * ((1 : ℚ) * (((20 : ℕ) : ℚ) / 10 ^ (1 : ℕ))) = 14 := by
          norm_num
        rw [h14]),
   (c7_nd_scaling 3 5 7 "nd=abc" (by decide) (by decide)).2.1 "abc"
      (by decide) rfl⟩

/-- C9: when all three hardware reads succeed (nonzero channels, lux
present) and the Logger's configured tag is `None`, `sensor_data`
reaches `option_in_tag(None, 'nd')`, whose `tag.split(',')` raises an
uncaught `AttributeError`; `Sensor.collect` propagates it, aborting the
collection pass. -/
theorem c9_none_tag_crash (v ir : Nat) (l : ℚ) (hv : v ≠ 0) (hir : ir ≠ 0) :
    sensor_data (.ok v) (.ok ir) (.ok l) none = .error .attributeError ∧
    collect 0 none (.ok v) (.ok ir) (.ok l) = .error .attributeError := by
  have hz : ¬(v = 0 ∨ ir = 0) := by tauto
  have h1 : sensor_data (.ok v) (.ok ir) (.ok l) none = .error .attributeError := by
    simp [sensor_data, hz, option_in_tag]
  exact ⟨h1, by unfold collect; rw [h1]⟩

/-- C9 witness: visible 3, infrared 5, lux 7, tag `None`: the sample
raises `AttributeError` instead of producing a reading. -/
theorem c9_witness :
    sensor_data (.ok 3) (.ok 5) (.ok 7) none = .error .attributeError ∧
    collect 0 none (.ok 3) (.ok 5) (.ok 7) = .error .attributeError :=
  c9_none_tag_crash 3 5 7 (by decide) (by decide)

end SolarLogger
